import Mathlib

/-!
# Verification of the Online-Compiler relay service (Back-End/app.py)

A shallow embedding of the single-file Flask relay in `src/Back-End/app.py`.

Modelling conventions:
* A Python `str` is a list of Unicode code points (`PyStr := List Nat`);
  `S` converts a Lean string literal to this form.
* JSON values are the inductive `JVal` (null / string / number / object);
  request bodies for `Submit` are string-valued dictionaries, which is the
  shape every field of interest has.
* The outbound HTTP call (`requests.post` / `requests.get`) is a parameter
  of the handler: it either yields a `response` (status code, parsed JSON
  body, raw text) or a `transportFailure` (modelling
  `requests.exceptions.ConnectionError` / `Timeout`, which are *not*
  `requests.exceptions.HTTPError`).  `raise_for_status` raising `HTTPError`
  is modelled by the handler branching on `400 ≤ status`.
* Each handler returns the outbound call it made (`none` when no call was
  made) together with the HTTP response, so "no outbound call" claims are
  statable.
* `base64.b64decode` is modelled after CPython's non-strict
  `binascii.a2b_base64` loop (invalid characters skipped, a completed pad
  quad ends decoding, a leftover quad position raises `binascii.Error`,
  which is a `ValueError`); a `str` argument is first ASCII-encoded, so a
  non-ASCII character also raises a `ValueError`.
* `bytes.decode('utf-8', errors='ignore')` is modelled by a total decoder
  that skips undecodable lead bytes; `str.encode('utf-8')` raises on lone
  surrogates, which the handlers surface through their generic
  `except Exception` branch (HTTP 500).
-/

namespace OnlineCompiler

/-- A Python string: a list of Unicode code points. -/
abbrev PyStr := List Nat

/-- Convert a Lean string literal to a `PyStr`. -/
def S (s : String) : PyStr := s.data.map Char.toNat

/-- A JSON value, as produced by `request.get_json()`, `response.json()`
and consumed by `jsonify`.  Numbers are modelled as integers (the only
numeric fields the relay touches, `status.id`, `time`, `memory`, are
passed through or compared to integers). -/
inductive JVal where
  | null
  | str (s : PyStr)
  | num (n : Int)
  | obj (fields : List (PyStr × JVal))

/-- Python `dict.get` (first-match lookup; the dictionaries the relay
builds and reads have no duplicate keys). -/
def pyGet {α : Type} : List (PyStr × α) → PyStr → Option α
  | [], _ => none
  | (k, v) :: rest, key => if k = key then some v else pyGet rest key

/-- The exceptions the modelled library calls can raise.
`binascii.Error` and `UnicodeEncodeError` are subclasses of `ValueError`. -/
inductive PyExc where
  | typeError
  | valueError
  | attributeError
deriving DecidableEq

/-! ## base64 (`base64.b64encode` / `base64.b64decode`) -/

/-- The standard base64 alphabet: 6-bit value to ASCII code. -/
def b64CharOfNat (v : Nat) : Nat :=
  if v < 26 then 65 + v
  else if v < 52 then 71 + v
  else if v < 62 then v - 4
  else if v = 62 then 43
  else 47

/-- Inverse alphabet: ASCII code to 6-bit value, `none` for a character
that is not base64 data (CPython's `table_a2b_base64`). -/
def b64Val (c : Nat) : Option Nat :=
  if 65 ≤ c ∧ c ≤ 90 then some (c - 65)
  else if 97 ≤ c ∧ c ≤ 122 then some (c - 71)
  else if 48 ≤ c ∧ c ≤ 57 then some (c + 4)
  else if c = 43 then some 62
  else if c = 47 then some 63
  else none

/-- `base64.b64encode`: bytes to the ASCII codes of the base64 text,
three input bytes per four output characters, `'='` (61) padding. -/
def b64encode : List Nat → List Nat
  | [] => []
  | [b1] => [b64CharOfNat (b1 / 4), b64CharOfNat (b1 % 4 * 16), 61, 61]
  | [b1, b2] => [b64CharOfNat (b1 / 4), b64CharOfNat (b1 % 4 * 16 + b2 / 16),
      b64CharOfNat (b2 % 16 * 4), 61]
  | b1 :: b2 :: b3 :: rest =>
      b64CharOfNat (b1 / 4) :: b64CharOfNat (b1 % 4 * 16 + b2 / 16) ::
      b64CharOfNat (b2 % 16 * 4 + b3 / 64) :: b64CharOfNat (b3 % 64) ::
      b64encode rest

/-- The state-passing loop of CPython's non-strict `binascii.a2b_base64`:
`quadPos` counts data characters within the current quad, `leftchar` holds
the pending bits, `pads` counts consecutive padding characters, `acc` is
the output accumulated in reverse.  Invalid characters are skipped; a pad
sequence completing a quad ends decoding; a leftover `quadPos ≠ 0` at the
end raises `binascii.Error` (modelled as `none`). -/
def b64dRun (quadPos leftchar pads : Nat) (acc : List Nat) : List Nat → Option (List Nat)
  | [] => if quadPos = 0 then some acc.reverse else none
  | c :: cs =>
    if c = 61 then
      if 2 ≤ quadPos ∧ 4 ≤ quadPos + (pads + 1) then some acc.reverse
      else b64dRun quadPos leftchar (pads + 1) acc cs
    else
      match b64Val c with
      | none => b64dRun quadPos leftchar pads acc cs
      | some v =>
        if quadPos = 0 then b64dRun 1 v 0 acc cs
        else if quadPos = 1 then b64dRun 2 (v % 16) 0 ((leftchar * 4 + v / 16) :: acc) cs
        else if quadPos = 2 then b64dRun 3 (v % 4) 0 ((leftchar * 16 + v / 4) :: acc) cs
        else b64dRun 0 0 0 ((leftchar * 64 + v) :: acc) cs

/-- `binascii.a2b_base64` in non-strict mode on ASCII codes. -/
def a2b_base64 (cs : List Nat) : Option (List Nat) := b64dRun 0 0 0 [] cs

/-- `base64.b64decode` applied to a Python `str`: the argument is first
encoded as ASCII (`UnicodeEncodeError ⊆ ValueError` on a non-ASCII
character), then run through `a2b_base64` (`binascii.Error ⊆ ValueError`
on bad padding). -/
def b64decodePy (s : PyStr) : Except PyExc (List Nat) :=
  if ∀ c ∈ s, c < 128 then
    match a2b_base64 s with
    | some bs => .ok bs
    | none => .error .valueError
  else .error .valueError

/-! ## UTF-8 (`str.encode('utf-8')` / `bytes.decode('utf-8', errors='ignore')`) -/

/-- A Unicode scalar value: what `str.encode('utf-8')` accepts
(code points below `0x110000` that are not surrogates). -/
def validScalar (c : Nat) : Prop := c < 1114112 ∧ ¬(55296 ≤ c ∧ c < 57344)

instance validScalar.decPred : DecidablePred validScalar := fun c => by
  unfold validScalar; infer_instance

/-- UTF-8 encoding of one code point (1 to 4 bytes). -/
def utf8EncodeChar (c : Nat) : List Nat :=
  if c < 128 then [c]
  else if c < 2048 then [192 + c / 64, 128 + c % 64]
  else if c < 65536 then [224 + c / 4096, 128 + c / 64 % 64, 128 + c % 64]
  else [240 + c / 262144, 128 + c / 4096 % 64, 128 + c / 64 % 64, 128 + c % 64]

/-- `str.encode('utf-8')` on a list of code points (meaningful on valid
scalar values; the handlers guard uses of it with `validScalar`,
mirroring Python raising `UnicodeEncodeError` on a lone surrogate). -/
def utf8Encode : List Nat → List Nat
  | [] => []
  | c :: cs => utf8EncodeChar c ++ utf8Encode cs

/-- Classification of a byte met in the initial decoder state: an ASCII
byte is emitted, a valid lead byte opens a multi-byte sequence (recording
how many continuation bytes follow, the accumulated high bits, and the
allowed range of the first continuation byte, which excludes overlong and
surrogate encodings exactly as a conforming UTF-8 decoder does), and any
other byte is undecodable and ignored. -/
inductive Utf8Next where
  | emit (c : Nat)
  | start (need val lo hi : Nat)
  | skip

/-- Classify one byte in the initial state of the UTF-8 decoder.  The
first continuation byte after lead `0xE0` must be at least `0xA0` (no
overlong), after `0xED` at most `0x9F` (no surrogate), after `0xF0` at
least `0x90` (no overlong), after `0xF4` at most `0x8F` (at most
`0x10FFFF`). -/
def utf8Lead (b : Nat) : Utf8Next :=
  if b < 128 then .emit b
  else if 194 ≤ b ∧ b ≤ 223 then .start 1 (b - 192) 128 191
  else if 224 ≤ b ∧ b ≤ 239 then
    .start 2 (b - 224) (if b = 224 then 160 else 128) (if b = 237 then 159 else 191)
  else if 240 ≤ b ∧ b ≤ 244 then
    .start 3 (b - 240) (if b = 240 then 144 else 128) (if b = 244 then 143 else 191)
  else .skip

/-- The byte-at-a-time loop of `bytes.decode('utf-8', errors='ignore')`:
`need` is the number of continuation bytes still expected (`0` in the
initial state), `val` the accumulated bits, `lo ≤ b ≤ hi` the constraint
on the next continuation byte.  An undecodable byte is skipped; a byte
that is not a valid continuation aborts the pending sequence and is
reclassified as a fresh lead byte; a sequence left incomplete at the end
of input is dropped. -/
def utf8Run : Nat → Nat → Nat → Nat → List Nat → List Nat
  | _, _, _, _, [] => []
  | need, val, lo, hi, b :: bs =>
    if need = 0 then
      match utf8Lead b with
      | .emit c => c :: utf8Run 0 0 0 0 bs
      | .start n v lo2 hi2 => utf8Run n v lo2 hi2 bs
      | .skip => utf8Run 0 0 0 0 bs
    else if lo ≤ b ∧ b ≤ hi then
      if need = 1 then (val * 64 + (b - 128)) :: utf8Run 0 0 0 0 bs
      else utf8Run (need - 1) (val * 64 + (b - 128)) 128 191 bs
    else
      match utf8Lead b with
      | .emit c => c :: utf8Run 0 0 0 0 bs
      | .start n v lo2 hi2 => utf8Run n v lo2 hi2 bs
      | .skip => utf8Run 0 0 0 0 bs

/-- `bytes.decode('utf-8', errors='ignore')`: total, never raises. -/
def utf8DecodeIgnore (bs : List Nat) : List Nat := utf8Run 0 0 0 0 bs

/-! ## decode_base64_output -/

/-- Python `str(data)` on the JSON values the poll handler can hand to
`decode_base64_output`.  `str` of a string is the string itself and
`str(None)` is `"None"`; these are the only shapes the relay's remote
responses contain (a `repr` of a composite object is not modelled and its
placeholder is never reached by the theorems below). -/
def pyStrOfJVal : JVal → PyStr
  | .null => S "None"
  | .str s => s
  | .num n => S (toString n)
  | .obj _ => S "<dict>"

/-- The body of the `try` block of `decode_base64_output`:
`base64.b64decode(data).decode('utf-8', errors='ignore')`.  A non-string,
non-bytes argument raises `TypeError` inside `b64decode`. -/
def decode_base64_body : JVal → Except PyExc PyStr
  | .str s => (b64decodePy s).map utf8DecodeIgnore
  | .null => .error .typeError
  | .num _ => .error .typeError
  | .obj _ => .error .typeError

/-- `decode_base64_output` with exception propagation made explicit: the
`data is None` guard returns `""`, the `except (TypeError, ValueError)`
clause returns `str(data)`, and any other exception would escape. -/
def decode_base64_outputE (data : JVal) : Except PyExc PyStr :=
  match data with
  | .null => .ok []
  | d =>
    match decode_base64_body d with
    | .ok s => .ok s
    | .error e =>
      if e = .typeError ∨ e = .valueError then .ok (pyStrOfJVal d) else .error e

/-- `decode_base64_output` as the handlers use it (the theorem for the
totality claim shows the `.error` fallback below is unreachable). -/
def decode_base64_output (data : JVal) : PyStr :=
  match decode_base64_outputE data with
  | .ok s => s
  | .error _ => []

/-! ## The relay handlers -/

/-- `LANGUAGE_MAP`, verbatim from the source. -/
def LANGUAGE_MAP : List (PyStr × Nat) :=
  [(S "Python 3", 71),
   (S "Node.js (JavaScript)", 63),
   (S "C++", 54),
   (S "C", 50),
   (S "Java", 62),
   (S "C#", 51),
   (S "Go", 60),
   (S "Rust", 73),
   (S "TypeScript", 74),
   (S "Plain Text", 43)]

/-- The JSON payload `submit_code` posts to the remote engine. -/
structure SubmitPayload where
  source_code : PyStr
  language_id : Nat
  stdin : PyStr
  cpu_time_limit : Nat
  memory_limit : Nat

/-- Outcome of one outbound `requests.post` / `requests.get`: either an
HTTP response (status code, parsed JSON body, raw text) or a transport
failure (`requests.exceptions.ConnectionError` / `Timeout`, which are not
`HTTPError` and therefore reach the handlers' generic `except Exception`
branch). -/
inductive CallResult where
  | response (status : Nat) (body : JVal) (text : PyStr)
  | transportFailure

/-- An inbound HTTP response of the relay: status code and JSON body. -/
structure HttpResp where
  status : Nat
  body : JVal

/-- `jsonify({"error": msg})`. -/
def errObj (msg : PyStr) : JVal := .obj [(S "error", .str msg)]

/-- Python equality of a JSON value against an integer literal
(`status_id in [1, 2]` compares with `==`). -/
def jIsNum : JVal → Int → Bool
  | .num m, n => m = n
  | _, _ => false

/-- `response.json().get('token')`: `.get` on a non-object raises
`AttributeError` (reaching the generic `except Exception` branch);
a missing key yields `None`. -/
def jGetToken : JVal → Except PyExc JVal
  | .obj fs => .ok ((pyGet fs (S "token")).getD .null)
  | _ => .error .attributeError

/-- The `/api/submit` handler `submit_code`.

The request body is the result of `request.get_json()` (`none` when it is
`None`; the falsiness test `if not data` also fires on an empty object).
Bodies are modelled as string-valued JSON objects, the only shape whose
fields the handler reads.  `remote` is the outbound
`requests.post(url, json=payload, ...)`.  The first component of the
result is the payload of the outbound call, `none` when no call was made;
the second is the HTTP response.  A code point on which
`str.encode('utf-8')` raises (a lone surrogate) falls into the generic
`except Exception` branch before any outbound call. -/
def submit_code (body : Option (List (PyStr × PyStr)))
    (remote : SubmitPayload → CallResult) : Option SubmitPayload × HttpResp :=
  match body with
  | none => (none, ⟨400, errObj (S "Invalid JSON payload")⟩)
  | some data =>
    if data.isEmpty then (none, ⟨400, errObj (S "Invalid JSON payload")⟩)
    else
      match pyGet LANGUAGE_MAP ((pyGet data (S "language")).getD (S "python")) with
      | none =>
        (none, ⟨400, errObj (S "Unsupported language: " ++
          (pyGet data (S "language")).getD (S "python"))⟩)
      | some language_id =>
        if language_id = 0 then
          (none, ⟨400, errObj (S "Unsupported language: " ++
            (pyGet data (S "language")).getD (S "python"))⟩)
        else if (∀ c ∈ (pyGet data (S "code")).getD [], validScalar c) ∧
            (∀ c ∈ (pyGet data (S "stdin")).getD [], validScalar c) then
          match remote ⟨b64encode (utf8Encode ((pyGet data (S "code")).getD [])),
              language_id,
              b64encode (utf8Encode ((pyGet data (S "stdin")).getD [])), 5, 256000⟩ with
          | .transportFailure =>
            (some ⟨b64encode (utf8Encode ((pyGet data (S "code")).getD [])),
                language_id,
                b64encode (utf8Encode ((pyGet data (S "stdin")).getD [])), 5, 256000⟩,
             ⟨500, errObj (S "An unexpected server error occurred.")⟩)
          | .response st rbody text =>
            if 400 ≤ st then
              (some ⟨b64encode (utf8Encode ((pyGet data (S "code")).getD [])),
                  language_id,
                  b64encode (utf8Encode ((pyGet data (S "stdin")).getD [])), 5, 256000⟩,
               ⟨502, .obj [(S "error", .str (S "Failed to submit code to compiler service.")),
                           (S "details", .str text)]⟩)
            else
              match jGetToken rbody with
              | .ok tok =>
                (some ⟨b64encode (utf8Encode ((pyGet data (S "code")).getD [])),
                    language_id,
                    b64encode (utf8Encode ((pyGet data (S "stdin")).getD [])), 5, 256000⟩,
                 ⟨202, .obj [(S "token", tok)]⟩)
              | .error _ =>
                (some ⟨b64encode (utf8Encode ((pyGet data (S "code")).getD [])),
                    language_id,
                    b64encode (utf8Encode ((pyGet data (S "stdin")).getD [])), 5, 256000⟩,
                 ⟨500, errObj (S "An unexpected server error occurred.")⟩)
        else (none, ⟨500, errObj (S "An unexpected server error occurred.")⟩)

/-- The `/api/status/<token>` handler `get_status`.

`remote` is the outbound `requests.get` keyed by the token; the first
component of the result is the token of the outbound call, `none` when no
call was made.  `raise_for_status` raising `HTTPError` is the `400 ≤ st`
branch; `result.get('status', {}).get('id')` raises `AttributeError`
(hence HTTP 500) when the `status` field holds a non-object value. -/
def get_status (token : PyStr) (remote : PyStr → CallResult) :
    Option PyStr × HttpResp :=
  if token.isEmpty then (none, ⟨400, errObj (S "Token is required")⟩)
  else
    match remote token with
    | .transportFailure =>
      (some token, ⟨500, errObj (S "An unexpected server error occurred during polling.")⟩)
    | .response st rbody text =>
      if 400 ≤ st then
        if st = 404 then (some token, ⟨404, errObj (S "Invalid or expired token.")⟩)
        else
          (some token,
           ⟨502, .obj [(S "error", .str (S "Failed to retrieve results from compiler service.")),
                       (S "details", .str text)]⟩)
      else
        match rbody with
        | .obj fs =>
          match (pyGet fs (S "status")).getD (.obj []) with
          | .obj sfs =>
            if jIsNum ((pyGet sfs (S "id")).getD .null) 1 ∨
                jIsNum ((pyGet sfs (S "id")).getD .null) 2 then
              (some token,
               ⟨200, .obj [(S "status", .obj [(S "description", .str (S "Pending"))])]⟩)
            else
              (some token,
               ⟨200, .obj [
                 (S "status", (pyGet sfs (S "description")).getD (.str (S "Unknown Error"))),
                 (S "stdout", .str (decode_base64_output ((pyGet fs (S "stdout")).getD .null))),
                 (S "stderr", .str (decode_base64_output ((pyGet fs (S "stderr")).getD .null))),
                 (S "compile_output",
                   .str (decode_base64_output ((pyGet fs (S "compile_output")).getD .null))),
                 (S "time", (pyGet fs (S "time")).getD .null),
                 (S "memory", (pyGet fs (S "memory")).getD .null)]⟩)
          | _ =>
            (some token,
             ⟨500, errObj (S "An unexpected server error occurred during polling.")⟩)
        | _ =>
          (some token,
           ⟨500, errObj (S "An unexpected server error occurred during polling.")⟩)

/-! ## Lemmas: base64 round trip -/

/-- Induction on a list of bytes three at a time, matching the grouping
of `b64encode`. -/
theorem list3_induction {P : List Nat → Prop} (h0 : P []) (h1 : ∀ a, P [a])
    (h2 : ∀ a b, P [a, b]) (h3 : ∀ a b c l, P l → P (a :: b :: c :: l)) :
    ∀ l, P l
  | [] => h0
  | [a] => h1 a
  | [a, b] => h2 a b
  | a :: b :: c :: l => h3 a b c l (list3_induction h0 h1 h2 h3 l)

/-- The inverse alphabet inverts the alphabet on 6-bit values, and the
alphabet never produces the padding character or a non-ASCII code. -/
theorem b64Val_b64CharOfNat :
    ∀ v < 64, b64Val (b64CharOfNat v) = some v ∧ b64CharOfNat v ≠ 61 ∧
      b64CharOfNat v < 128 := by decide

/-- A data character advances the decoder from quad position 0. -/
theorem b64dRun_data0 (l p : Nat) (acc cs : List Nat) (c v : Nat)
    (hv : b64Val c = some v) (h : c ≠ 61) :
    b64dRun 0 l p acc (c :: cs) = b64dRun 1 v 0 acc cs := by
  simp [b64dRun, h, hv]

/-- A data character advances the decoder from quad position 1, emitting
one byte. -/
theorem b64dRun_data1 (l p : Nat) (acc cs : List Nat) (c v : Nat)
    (hv : b64Val c = some v) (h : c ≠ 61) :
    b64dRun 1 l p acc (c :: cs) = b64dRun 2 (v % 16) 0 ((l * 4 + v / 16) :: acc) cs := by
  simp [b64dRun, h, hv]

/-- A data character advances the decoder from quad position 2, emitting
one byte. -/
theorem b64dRun_data2 (l p : Nat) (acc cs : List Nat) (c v : Nat)
    (hv : b64Val c = some v) (h : c ≠ 61) :
    b64dRun 2 l p acc (c :: cs) = b64dRun 3 (v % 4) 0 ((l * 16 + v / 4) :: acc) cs := by
  simp [b64dRun, h, hv]

/-- A data character completes a quad from position 3, emitting one byte. -/
theorem b64dRun_data3 (l p : Nat) (acc cs : List Nat) (c v : Nat)
    (hv : b64Val c = some v) (h : c ≠ 61) :
    b64dRun 3 l p acc (c :: cs) = b64dRun 0 0 0 ((l * 64 + v) :: acc) cs := by
  simp [b64dRun, h, hv]

/-- The first padding character after two data characters is recorded. -/
theorem b64dRun_pad2 (l : Nat) (acc cs : List Nat) :
    b64dRun 2 l 0 acc (61 :: cs) = b64dRun 2 l 1 acc cs := by
  simp [b64dRun]

/-- The second padding character after two data characters completes the
quad and ends decoding. -/
theorem b64dRun_pad2' (l : Nat) (acc cs : List Nat) :
    b64dRun 2 l 1 acc (61 :: cs) = some acc.reverse := by
  simp [b64dRun]

/-- A padding character after three data characters completes the quad
and ends decoding. -/
theorem b64dRun_pad3 (l : Nat) (acc cs : List Nat) :
    b64dRun 3 l 0 acc (61 :: cs) = some acc.reverse := by
  simp [b64dRun]

/-- Running the decoder over the encoding of a byte list appends those
bytes to the accumulated output. -/
theorem b64dRun_b64encode (bs : List Nat) (h : ∀ b ∈ bs, b < 256) :
    ∀ acc : List Nat, b64dRun 0 0 0 acc (b64encode bs) = some (acc.reverse ++ bs) := by
  induction bs using list3_induction with
  | h0 => intro acc; simp [b64encode, b64dRun]
  | h1 b1 =>
    intro acc
    have hb1 : b1 < 256 := h b1 (by simp)
    obtain ⟨e1, n1, -⟩ := b64Val_b64CharOfNat (b1 / 4) (by omega)
    obtain ⟨e2, n2, -⟩ := b64Val_b64CharOfNat (b1 % 4 * 16) (by omega)
    rw [show b64encode [b1] = [b64CharOfNat (b1 / 4), b64CharOfNat (b1 % 4 * 16), 61, 61]
        from rfl,
      b64dRun_data0 _ _ _ _ _ _ e1 n1, b64dRun_data1 _ _ _ _ _ _ e2 n2,
      b64dRun_pad2, b64dRun_pad2']
    simp
    omega
  | h2 b1 b2 =>
    intro acc
    have hb1 : b1 < 256 := h b1 (by simp)
    have hb2 : b2 < 256 := h b2 (by simp)
    obtain ⟨e1, n1, -⟩ := b64Val_b64CharOfNat (b1 / 4) (by omega)
    obtain ⟨e2, n2, -⟩ := b64Val_b64CharOfNat (b1 % 4 * 16 + b2 / 16) (by omega)
    obtain ⟨e3, n3, -⟩ := b64Val_b64CharOfNat (b2 % 16 * 4) (by omega)
    rw [show b64encode [b1, b2] = [b64CharOfNat (b1 / 4),
        b64CharOfNat (b1 % 4 * 16 + b2 / 16), b64CharOfNat (b2 % 16 * 4), 61] from rfl,
      b64dRun_data0 _ _ _ _ _ _ e1 n1, b64dRun_data1 _ _ _ _ _ _ e2 n2,
      b64dRun_data2 _ _ _ _ _ _ e3 n3, b64dRun_pad3]
    simp
    omega
  | h3 b1 b2 b3 rest ih =>
    intro acc
    have hb1 : b1 < 256 := h b1 (by simp)
    have hb2 : b2 < 256 := h b2 (by simp)
    have hb3 : b3 < 256 := h b3 (by simp)
    obtain ⟨e1, n1, -⟩ := b64Val_b64CharOfNat (b1 / 4) (by omega)
    obtain ⟨e2, n2, -⟩ := b64Val_b64CharOfNat (b1 % 4 * 16 + b2 / 16) (by omega)
    obtain ⟨e3, n3, -⟩ := b64Val_b64CharOfNat (b2 % 16 * 4 + b3 / 64) (by omega)
    obtain ⟨e4, n4, -⟩ := b64Val_b64CharOfNat (b3 % 64) (by omega)
    rw [show b64encode (b1 :: b2 :: b3 :: rest) = b64CharOfNat (b1 / 4) ::
        b64CharOfNat (b1 % 4 * 16 + b2 / 16) :: b64CharOfNat (b2 % 16 * 4 + b3 / 64) ::
        b64CharOfNat (b3 % 64) :: b64encode rest from rfl,
      b64dRun_data0 _ _ _ _ _ _ e1 n1, b64dRun_data1 _ _ _ _ _ _ e2 n2,
      b64dRun_data2 _ _ _ _ _ _ e3 n3, b64dRun_data3 _ _ _ _ _ _ e4 n4]
    have u1 : b1 / 4 * 4 + (b1 % 4 * 16 + b2 / 16) / 16 = b1 := by omega
    have u2 : (b1 % 4 * 16 + b2 / 16) % 16 * 16 + (b2 % 16 * 4 + b3 / 64) / 4 = b2 := by
      omega
    have u3 : (b2 % 16 * 4 + b3 / 64) % 4 * 64 + b3 % 64 = b3 := by omega
    rw [u1, u2, u3, ih (fun b hb => h b (by simp [hb])) (b3 :: b2 :: b1 :: acc)]
    simp

/-- Every character the encoder emits is ASCII. -/
theorem b64encode_lt128 (bs : List Nat) (h : ∀ b ∈ bs, b < 256) :
    ∀ c ∈ b64encode bs, c < 128 := by
  induction bs using list3_induction with
  | h0 => simp [b64encode]
  | h1 b1 =>
    have hb1 : b1 < 256 := h b1 (by simp)
    obtain ⟨-, -, l1⟩ := b64Val_b64CharOfNat (b1 / 4) (by omega)
    obtain ⟨-, -, l2⟩ := b64Val_b64CharOfNat (b1 % 4 * 16) (by omega)
    intro c hc
    simp [b64encode] at hc
    rcases hc with rfl | rfl | rfl
    · exact l1
    · exact l2
    · omega
  | h2 b1 b2 =>
    have hb1 : b1 < 256 := h b1 (by simp)
    have hb2 : b2 < 256 := h b2 (by simp)
    obtain ⟨-, -, l1⟩ := b64Val_b64CharOfNat (b1 / 4) (by omega)
    obtain ⟨-, -, l2⟩ := b64Val_b64CharOfNat (b1 % 4 * 16 + b2 / 16) (by omega)
    obtain ⟨-, -, l3⟩ := b64Val_b64CharOfNat (b2 % 16 * 4) (by omega)
    intro c hc
    simp [b64encode] at hc
    rcases hc with rfl | rfl | rfl | rfl
    · exact l1
    · exact l2
    · exact l3
    · omega
  | h3 b1 b2 b3 rest ih =>
    have hb1 : b1 < 256 := h b1 (by simp)
    have hb2 : b2 < 256 := h b2 (by simp)
    have hb3 : b3 < 256 := h b3 (by simp)
    obtain ⟨-, -, l1⟩ := b64Val_b64CharOfNat (b1 / 4) (by omega)
    obtain ⟨-, -, l2⟩ := b64Val_b64CharOfNat (b1 % 4 * 16 + b2 / 16) (by omega)
    obtain ⟨-, -, l3⟩ := b64Val_b64CharOfNat (b2 % 16 * 4 + b3 / 64) (by omega)
    obtain ⟨-, -, l4⟩ := b64Val_b64CharOfNat (b3 % 64) (by omega)
    intro c hc
    simp [b64encode] at hc
    rcases hc with rfl | rfl | rfl | rfl | hc
    · exact l1
    · exact l2
    · exact l3
    · exact l4
    · exact ih (fun b hb => h b (by simp [hb])) c hc

/-- `base64.b64decode` inverts `base64.b64encode` on byte lists. -/
theorem b64decodePy_b64encode (bs : List Nat) (h : ∀ b ∈ bs, b < 256) :
    b64decodePy (b64encode bs) = .ok bs := by
  rw [b64decodePy, if_pos (b64encode_lt128 bs h), a2b_base64,
    b64dRun_b64encode bs h []]
  rfl

/-! ## Lemmas: UTF-8 round trip -/

/-- UTF-8 encoding of a code point below `0x110000` yields bytes. -/
theorem utf8EncodeChar_lt256 (c : Nat) (h : c < 1114112) :
    ∀ b ∈ utf8EncodeChar c, b < 256 := by
  intro b hb
  unfold utf8EncodeChar at hb
  split at hb
  · simp at hb; omega
  · split at hb
    · simp at hb; rcases hb with rfl | rfl <;> omega
    · split at hb
      · simp at hb; rcases hb with rfl | rfl | rfl <;> omega
      · simp at hb; rcases hb with rfl | rfl | rfl | rfl <;> omega

/-- UTF-8 encoding of code points below `0x110000` yields bytes. -/
theorem utf8Encode_lt256 (cps : List Nat) (h : ∀ c ∈ cps, c < 1114112) :
    ∀ b ∈ utf8Encode cps, b < 256 := by
  induction cps with
  | nil => simp [utf8Encode]
  | cons c cs ih =>
    intro b hb
    simp [utf8Encode] at hb
    rcases hb with hb | hb
    · exact utf8EncodeChar_lt256 c (h c (by simp)) b hb
    · exact ih (fun x hx => h x (by simp [hx])) b hb

/-- An ASCII byte is emitted directly in the initial decoder state. -/
theorem utf8Run0_ascii (val lo hi b : Nat) (bs : List Nat) (h : b < 128) :
    utf8Run 0 val lo hi (b :: bs) = b :: utf8Run 0 0 0 0 bs := by
  simp [utf8Run, utf8Lead, h]

/-- A two-byte lead opens a one-continuation sequence. -/
theorem utf8Run0_lead2 (val lo hi b : Nat) (bs : List Nat) (h : 194 ≤ b ∧ b ≤ 223) :
    utf8Run 0 val lo hi (b :: bs) = utf8Run 1 (b - 192) 128 191 bs := by
  have h1 : ¬b < 128 := by omega
  simp [utf8Run, utf8Lead, h, h1]

/-- A three-byte lead opens a two-continuation sequence with the lead's
first-continuation range. -/
theorem utf8Run0_lead3 (val lo hi b : Nat) (bs : List Nat) (h : 224 ≤ b ∧ b ≤ 239) :
    utf8Run 0 val lo hi (b :: bs) =
      utf8Run 2 (b - 224) (if b = 224 then 160 else 128) (if b = 237 then 159 else 191) bs := by
  have h1 : ¬b < 128 := by omega
  have h2 : ¬(194 ≤ b ∧ b ≤ 223) := by omega
  simp [utf8Run, utf8Lead, h, h1, h2]

/-- A four-byte lead opens a three-continuation sequence with the lead's
first-continuation range. -/
theorem utf8Run0_lead4 (val lo hi b : Nat) (bs : List Nat) (h : 240 ≤ b ∧ b ≤ 244) :
    utf8Run 0 val lo hi (b :: bs) =
      utf8Run 3 (b - 240) (if b = 240 then 144 else 128) (if b = 244 then 143 else 191) bs := by
  have h1 : ¬b < 128 := by omega
  have h2 : ¬(194 ≤ b ∧ b ≤ 223) := by omega
  have h3 : ¬(224 ≤ b ∧ b ≤ 239) := by omega
  simp [utf8Run, utf8Lead, h, h1, h2, h3]

/-- The final continuation byte of a sequence emits the code point. -/
theorem utf8Run_cont1 (val lo hi b : Nat) (bs : List Nat) (h : lo ≤ b ∧ b ≤ hi) :
    utf8Run 1 val lo hi (b :: bs) = (val * 64 + (b - 128)) :: utf8Run 0 0 0 0 bs := by
  simp [utf8Run, h]

/-- A non-final continuation byte accumulates six more bits. -/
theorem utf8Run_cont2 (val lo hi b : Nat) (bs : List Nat) (h : lo ≤ b ∧ b ≤ hi) :
    utf8Run 2 val lo hi (b :: bs) = utf8Run 1 (val * 64 + (b - 128)) 128 191 bs := by
  simp [utf8Run, h]

/-- A non-final continuation byte accumulates six more bits. -/
theorem utf8Run_cont3 (val lo hi b : Nat) (bs : List Nat) (h : lo ≤ b ∧ b ≤ hi) :
    utf8Run 3 val lo hi (b :: bs) = utf8Run 2 (val * 64 + (b - 128)) 128 191 bs := by
  simp [utf8Run, h]

/-- Decoding the UTF-8 encoding of one valid scalar value from the
initial state emits exactly that code point and returns to the initial
state. -/
theorem utf8Run_utf8EncodeChar (c : Nat) (hc : validScalar c) (rest : List Nat) :
    utf8Run 0 0 0 0 (utf8EncodeChar c ++ rest) = c :: utf8Run 0 0 0 0 rest := by
  obtain ⟨hlt, hsur⟩ := hc
  by_cases h1 : c < 128
  · rw [show utf8EncodeChar c = [c] by simp [utf8EncodeChar, h1]]
    exact utf8Run0_ascii _ _ _ _ _ h1
  · by_cases h2 : c < 2048
    · rw [show utf8EncodeChar c = [192 + c / 64, 128 + c % 64] by
        simp [utf8EncodeChar, h1, h2]]
      rw [List.cons_append, List.cons_append, List.nil_append,
        utf8Run0_lead2, utf8Run_cont1]
      · rw [show (192 + c / 64 - 192) * 64 + (128 + c % 64 - 128) = c by omega]
      · omega
      · omega
    · by_cases h3 : c < 65536
      · rw [show utf8EncodeChar c = [224 + c / 4096, 128 + c / 64 % 64, 128 + c % 64] by
          simp [utf8EncodeChar, h1, h2, h3]]
        rw [List.cons_append, List.cons_append, List.cons_append, List.nil_append,
          utf8Run0_lead3, utf8Run_cont2, utf8Run_cont1]
        · rw [show ((224 + c / 4096 - 224) * 64 + (128 + c / 64 % 64 - 128)) * 64 +
            (128 + c % 64 - 128) = c by omega]
        · omega
        · split <;> split <;> omega
        · omega
      · rw [show utf8EncodeChar c =
            [240 + c / 262144, 128 + c / 4096 % 64, 128 + c / 64 % 64, 128 + c % 64] by
          simp [utf8EncodeChar, h1, h2, h3]]
        rw [List.cons_append, List.cons_append, List.cons_append, List.cons_append,
          List.nil_append,
          utf8Run0_lead4, utf8Run_cont3, utf8Run_cont2, utf8Run_cont1]
        · rw [show (((240 + c / 262144 - 240) * 64 + (128 + c / 4096 % 64 - 128)) * 64 +
            (128 + c / 64 % 64 - 128)) * 64 + (128 + c % 64 - 128) = c by omega]
        · omega
        · omega
        · split <;> split <;> omega
        · omega

/-- UTF-8 decoding with `errors='ignore'` inverts UTF-8 encoding on valid
scalar values. -/
theorem utf8DecodeIgnore_utf8Encode (cps : List Nat) (h : ∀ c ∈ cps, validScalar c) :
    utf8DecodeIgnore (utf8Encode cps) = cps := by
  unfold utf8DecodeIgnore
  induction cps with
  | nil => simp [utf8Encode, utf8Run]
  | cons c cs ih =>
    rw [show utf8Encode (c :: cs) = utf8EncodeChar c ++ utf8Encode cs from rfl,
      utf8Run_utf8EncodeChar c (h c (by simp)),
      ih (fun x hx => h x (by simp [hx]))]

/-! ## Lemmas: the decode helper's exceptions -/

/-- The only exception `base64.b64decode` raises on a string argument is a
`ValueError` (`binascii.Error` on bad padding, `UnicodeEncodeError` on a
non-ASCII argument). -/
theorem b64decodePy_error (s : PyStr) (e : PyExc) (h : b64decodePy s = .error e) :
    e = .valueError := by
  rw [b64decodePy] at h
  split at h
  · rcases ha : a2b_base64 s with - | bs <;> rw [ha] at h
    · injection h with h
      exact h.symm
    · exact absurd h (by simp)
  · injection h with h
    exact h.symm

/-- A nonempty list is not `isEmpty`. -/
theorem isEmpty_false_of_ne_nil {α : Type} (l : List α) (h : l ≠ []) :
    l.isEmpty = false := by
  cases l with
  | nil => exact absurd rfl h
  | cons a t => rfl

/-- Unfolding of the explicit-exception decode helper on a string. -/
theorem decode_base64_outputE_str (s : PyStr) :
    decode_base64_outputE (.str s) =
      match (b64decodePy s).map utf8DecodeIgnore with
      | .ok t => .ok t
      | .error e => if e = .typeError ∨ e = .valueError then .ok s else .error e := rfl

/-- The decode helper is the explicit-exception helper with the
(unreachable) uncaught-exception branch defaulted. -/
theorem decode_base64_output_eq (d : JVal) :
    decode_base64_output d =
      match decode_base64_outputE d with
      | .ok s => s
      | .error _ => [] := rfl

/-! ## The claims -/

/-- Claim C1: for the input `{code: "print(1)", language: "Python 3",
stdin: ""}`, `submit_code` constructs a remote payload with
`language_id = 71`, `source_code` the base64 of `"print(1)"`
(`"cHJpbnQoMSk="`), `stdin` the base64 of `""` (`""`),
`cpu_time_limit = 5` and `memory_limit = 256000`, and on remote success
(any non-error remote status, any issued token) returns HTTP 202 with
that token. -/
theorem claim_C1 (st : Nat) (tok text : PyStr) (hst : st < 400) :
    submit_code
      (some [(S "code", S "print(1)"), (S "language", S "Python 3"), (S "stdin", S "")])
      (fun _ => .response st (.obj [(S "token", .str tok)]) text)
    = (some ⟨S "cHJpbnQoMSk=", 71, S "", 5, 256000⟩,
       ⟨202, .obj [(S "token", .str tok)]⟩) := by
  show (if 400 ≤ st then _ else _ : Option SubmitPayload × HttpResp) = _
  rw [if_neg (by omega : ¬400 ≤ st)]
  rfl

/-- Witness for C1 at `st = 201`, token `"abc"`. -/
theorem claim_C1_witness :
    submit_code
      (some [(S "code", S "print(1)"), (S "language", S "Python 3"), (S "stdin", S "")])
      (fun _ => .response 201 (.obj [(S "token", .str (S "abc"))]) [])
    = (some ⟨S "cHJpbnQoMSk=", 71, S "", 5, 256000⟩,
       ⟨202, .obj [(S "token", .str (S "abc"))]⟩) :=
  claim_C1 201 (S "abc") [] (by omega)

/-- Claim C2: whenever the remote engine answers a successful poll with a
numeric status id of 1 ("in queue") or 2 ("currently processing"),
`get_status` returns HTTP 200 with exactly
`{status: {description: "Pending"}}` and no other fields. -/
theorem claim_C2 (token text : PyStr) (st : Nat) (fs sfs : List (PyStr × JVal)) (i : Int)
    (htok : token ≠ []) (hst : st < 400)
    (hstatus : pyGet fs (S "status") = some (.obj sfs))
    (hid : pyGet sfs (S "id") = some (.num i))
    (hi : i = 1 ∨ i = 2) :
    get_status token (fun _ => .response st (.obj fs) text) =
      (some token,
       ⟨200, .obj [(S "status", .obj [(S "description", .str (S "Pending"))])]⟩) := by
  rw [get_status, isEmpty_false_of_ne_nil token htok]
  simp only [Bool.false_eq_true, if_false]
  rw [if_neg (by omega)]
  simp only [hstatus, Option.getD_some, hid]
  rcases hi with rfl | rfl <;> simp [jIsNum]

/-- Witness for C2: token `"t"`, remote body
`{status: {id: 1}}` at remote HTTP status 200. -/
theorem claim_C2_witness :
    get_status (S "t")
      (fun _ => .response 200 (.obj [(S "status", .obj [(S "id", .num 1)])]) []) =
      (some (S "t"),
       ⟨200, .obj [(S "status", .obj [(S "description", .str (S "Pending"))])]⟩) :=
  claim_C2 (S "t") [] 200 [(S "status", .obj [(S "id", .num 1)])] [(S "id", .num 1)] 1
    (by decide) (by omega) rfl rfl (Or.inl rfl)

/-- Claim C3: for every request body whose `language` value is not a key
of `LANGUAGE_MAP`, `submit_code` returns HTTP 400 with an error naming
that language and makes no outbound call. -/
theorem claim_C3 (data : List (PyStr × PyStr)) (lang : PyStr)
    (remote : SubmitPayload → CallResult)
    (hne : data ≠ [])
    (hlang : pyGet data (S "language") = some lang)
    (hun : pyGet LANGUAGE_MAP lang = none) :
    submit_code (some data) remote =
      (none, ⟨400, errObj (S "Unsupported language: " ++ lang)⟩) := by
  rw [submit_code, isEmpty_false_of_ne_nil data hne]
  simp only [Bool.false_eq_true, if_false, hlang, Option.getD_some, hun]

/-- Witness for C3: the spec's own scenario, `language = "COBOL"`. -/
theorem claim_C3_witness :
    submit_code (some [(S "language", S "COBOL")]) (fun _ => .transportFailure) =
      (none, ⟨400, errObj (S "Unsupported language: COBOL")⟩) :=
  claim_C3 [(S "language", S "COBOL")] (S "COBOL") (fun _ => .transportFailure)
    (by decide) rfl rfl

/-- Counterexample to claim C4 as stated: `"YQ"` is malformed base64
(two data characters and no padding raise `binascii.Error`), yet the
decode helper returns the raw field text `"YQ"`, not the empty string the
claim requires for an undecodable field. -/
theorem claim_C4_counterexample :
    decode_base64_output (JVal.str (S "YQ")) = S "YQ" ∧
      decode_base64_output (JVal.str (S "YQ")) ≠ S "" :=
  ⟨rfl, by decide⟩

/-- Claim C4 (amended): the decode helper substitutes the empty string
only when the field is absent (`None`); when the field is present but
undecodable (malformed base64), it returns the field's own string form
(`str(data)`) instead. -/
theorem claim_C4_amended (s : PyStr) (e : PyExc) (h : b64decodePy s = .error e) :
    decode_base64_output JVal.null = S "" ∧ decode_base64_output (JVal.str s) = s := by
  refine ⟨rfl, ?_⟩
  have he := b64decodePy_error s e h
  subst he
  rw [decode_base64_output_eq, decode_base64_outputE_str, h]
  rfl

/-- Witness for the amended C4 at the undecodable field `"YQ"`. -/
theorem claim_C4_amended_witness :
    decode_base64_output JVal.null = S "" ∧
      decode_base64_output (JVal.str (S "YQ")) = S "YQ" :=
  claim_C4_amended (S "YQ") .valueError rfl

/-- Claim C5: the decode helper is total.  With exception propagation
explicit, every input produces an `.ok` result (the `try` body only
raises `TypeError` or `ValueError`, both caught), and the absent
(`None`) input yields the empty string. -/
theorem claim_C5 (d : JVal) :
    (∃ s : PyStr, decode_base64_outputE d = .ok s) ∧
      decode_base64_outputE JVal.null = .ok [] := by
  refine ⟨?_, rfl⟩
  cases d with
  | null => exact ⟨[], rfl⟩
  | str s =>
    rcases hb : b64decodePy s with e | bs
    · have he := b64decodePy_error s e hb
      subst he
      exact ⟨s, by rw [decode_base64_outputE_str, hb]; rfl⟩
    · exact ⟨utf8DecodeIgnore bs, by rw [decode_base64_outputE_str, hb]; rfl⟩
  | num n => exact ⟨pyStrOfJVal (.num n), rfl⟩
  | obj fs => exact ⟨pyStrOfJVal (.obj fs), rfl⟩

/-- Claim C6: encoding any valid text the way `submit_code` encodes
`code` and `stdin` (UTF-8 then base64) and decoding it with the decode
helper yields the original text. -/
theorem claim_C6 (cps : PyStr) (h : ∀ c ∈ cps, validScalar c) :
    decode_base64_output (.str (b64encode (utf8Encode cps))) = cps := by
  have hb : ∀ b ∈ utf8Encode cps, b < 256 :=
    utf8Encode_lt256 cps (fun c hc => (h c hc).1)
  rw [decode_base64_output_eq, decode_base64_outputE_str,
    b64decodePy_b64encode (utf8Encode cps) hb]
  show utf8DecodeIgnore (utf8Encode cps) = cps
  exact utf8DecodeIgnore_utf8Encode cps h

/-- Witness for C6 on the text `"print(1)"`. -/
theorem claim_C6_witness :
    decode_base64_output (.str (b64encode (utf8Encode (S "print(1)")))) = S "print(1)" :=
  claim_C6 (S "print(1)") (by decide)

/-- Counterexample to claim C7 as stated: a transport-level failure of
the outbound call (a `requests` `ConnectionError`/`Timeout`, which is not
an `HTTPError`) makes `submit_code` return the generic HTTP 500 internal
error, not the HTTP 502 `RemoteServiceError` the claim requires for
every transport-level failure. -/
theorem claim_C7_counterexample :
    (submit_code
      (some [(S "code", S "print(1)"), (S "language", S "Python 3"), (S "stdin", S "")])
      (fun _ => CallResult.transportFailure)).2
      = ⟨500, errObj (S "An unexpected server error occurred.")⟩ ∧
    (submit_code
      (some [(S "code", S "print(1)"), (S "language", S "Python 3"), (S "stdin", S "")])
      (fun _ => CallResult.transportFailure)).2.status ≠ 502 :=
  ⟨rfl, by decide⟩

/-- Claim C7 (amended): a remote-service failure signalled by an HTTP
error status makes `submit_code` return HTTP 502 carrying the remote
engine's raw error text, while a transport-level failure (no HTTP
response at all) falls into the generic handler and returns HTTP 500. -/
theorem claim_C7_amended (data : List (PyStr × PyStr)) (lid st : Nat) (rbody : JVal)
    (text : PyStr)
    (hne : data ≠ [])
    (hl : pyGet LANGUAGE_MAP ((pyGet data (S "language")).getD (S "python")) = some lid)
    (hlid : lid ≠ 0)
    (hvc : ∀ c ∈ (pyGet data (S "code")).getD [], validScalar c)
    (hvs : ∀ c ∈ (pyGet data (S "stdin")).getD [], validScalar c)
    (hst : 400 ≤ st) :
    (submit_code (some data) (fun _ => .response st rbody text)).2 =
      ⟨502, .obj [(S "error", .str (S "Failed to submit code to compiler service.")),
                  (S "details", .str text)]⟩ ∧
    (submit_code (some data) (fun _ => .transportFailure)).2 =
      ⟨500, errObj (S "An unexpected server error occurred.")⟩ := by
  constructor
  · rw [submit_code, isEmpty_false_of_ne_nil data hne]
    simp only [Bool.false_eq_true, if_false, hl]
    rw [if_neg hlid, if_pos ⟨hvc, hvs⟩, if_pos hst]
  · rw [submit_code, isEmpty_false_of_ne_nil data hne]
    simp only [Bool.false_eq_true, if_false, hl]
    rw [if_neg hlid, if_pos ⟨hvc, hvs⟩]

/-- Witness for the amended C7: `language = "C"`, remote HTTP 500 with
detail text `"oops"` for the first half, transport failure for the
second. -/
theorem claim_C7_amended_witness :
    (submit_code (some [(S "code", S "x"), (S "language", S "C")])
        (fun _ => .response 500 .null (S "oops"))).2 =
      ⟨502, .obj [(S "error", .str (S "Failed to submit code to compiler service.")),
                  (S "details", .str (S "oops"))]⟩ ∧
    (submit_code (some [(S "code", S "x"), (S "language", S "C")])
        (fun _ => .transportFailure)).2 =
      ⟨500, errObj (S "An unexpected server error occurred.")⟩ :=
  claim_C7_amended [(S "code", S "x"), (S "language", S "C")] 50 500 .null (S "oops")
    (by decide) rfl (by decide) (by decide) (by decide) (by omega)

/-- Claim C8: when the remote engine answers a poll with HTTP 404,
`get_status` returns HTTP 404 with the error `"Invalid or expired
token."`. -/
theorem claim_C8 (token text : PyStr) (rbody : JVal) (htok : token ≠ []) :
    get_status token (fun _ => .response 404 rbody text) =
      (some token, ⟨404, errObj (S "Invalid or expired token.")⟩) := by
  obtain ⟨a, ts, rfl⟩ := List.exists_cons_of_ne_nil htok
  rfl

/-- Witness for C8 at token `"t"`. -/
theorem claim_C8_witness :
    get_status (S "t") (fun _ => .response 404 .null []) =
      (some (S "t"), ⟨404, errObj (S "Invalid or expired token.")⟩) :=
  claim_C8 (S "t") [] .null (by decide)

/-- Claim C9: invoked with an empty token, `get_status` returns HTTP 400
with a missing-token error and makes no outbound call, whatever the
remote engine would answer. -/
theorem claim_C9 (remote : PyStr → CallResult) :
    get_status [] remote = (none, ⟨400, errObj (S "Token is required")⟩) := rfl

/-- Claim C10: a request body that omits the `language` field entirely is
not treated as an invalid payload: the default `"python"` is substituted,
which is not a key of `LANGUAGE_MAP`, so `submit_code` returns HTTP 400
with `"Unsupported language: python"` and makes no outbound call. -/
theorem claim_C10 (data : List (PyStr × PyStr)) (remote : SubmitPayload → CallResult)
    (hne : data ≠ [])
    (hnolang : pyGet data (S "language") = none) :
    submit_code (some data) remote =
      (none, ⟨400, errObj (S "Unsupported language: python")⟩) := by
  rw [submit_code, isEmpty_false_of_ne_nil data hne]
  have hpy : pyGet LANGUAGE_MAP (S "python") = none := rfl
  simp only [Bool.false_eq_true, if_false, hnolang, Option.getD_none, hpy]
  rfl

/-- Witness for C10: a body with only a `code` field. -/
theorem claim_C10_witness :
    submit_code (some [(S "code", S "x")]) (fun _ => .transportFailure) =
      (none, ⟨400, errObj (S "Unsupported language: python")⟩) :=
  claim_C10 [(S "code", S "x")] (fun _ => .transportFailure) (by decide) rfl

end OnlineCompiler
